import Mathlib

/-!
Shallow embedding of `videoLauncher.py` (class `VideoLauncherApp`), a
tkinter desktop launcher that plays videos through an external `mpv`
process.  Pure helpers of the script become Lean functions; the stateful
methods become explicit state-passing functions; the operating-system
facts the script consults (`os.path.exists`, `os.path.isfile`) are
passed in as boolean-valued environments; the settings JSON file is a
map from file names to the JSON document stored there, with the
`json.dump`/`json.load` pair modelled at the document level.
-/

namespace VideoLauncher

/-- Saved monitor geometry, the `fullscreen_monitor` settings entry
(`{"x": .., "y": .., "width": .., "height": ..}`, lines 508-513). -/
structure MonitorInfo where
  x : Int
  y : Int
  width : Int
  height : Int
deriving Repr, DecidableEq

/-- A connected monitor as reported by `screeninfo.get_monitors()`. -/
structure Monitor where
  x : Int
  y : Int
  width : Int
  height : Int
deriving Repr, DecidableEq

/-- One entry of the `buttons` settings list: `{"title": .., "video": ..}`. -/
structure ButtonConfig where
  title : String
  video : String
deriving Repr, DecidableEq

/-- The settings dictionary, with the keys the script reads and writes
(default values at `load_settings`, lines 56-67). -/
structure Settings where
  background_color : String
  button_border_color : String
  button_text_color : String
  font_family : String
  font_size : Int
  fullscreen : Bool
  window_geometry : String
  mpv_path : String
  fullscreen_monitor : Option MonitorInfo
  buttons : List ButtonConfig
deriving Repr, DecidableEq

/-- `SETTINGS_FILE = "settings.json"` (line 18). -/
def SETTINGS_FILE : String := "settings.json"

/-- The file system as seen through the `json` module: each path maps to
the JSON document stored there (`none` when `os.path.exists` is false).
`json.dump` followed by `json.load` is modelled at the document level. -/
def FileSys : Type := String → Option Settings

/-- Default settings returned by `load_settings` when the settings file
does not exist (lines 56-67). -/
def defaultSettings : Settings :=
  { background_color := "#000000"
    button_border_color := "#FFFFFF"
    button_text_color := "#FFFFFF"
    font_family := "Arial"
    font_size := 12
    fullscreen := false
    window_geometry := "600x600+100+100"
    mpv_path := ""
    fullscreen_monitor := none
    buttons := (List.range 9).map
      (fun i => { title := "Button " ++ toString (i + 1), video := "" }) }

/-- `load_settings` (lines 47-67): if the settings file exists, parse and
return it, otherwise return the defaults. -/
def load_settings (fs : FileSys) : Settings :=
  match fs SETTINGS_FILE with
  | some s => s
  | none => defaultSettings

/-- `save_settings` (lines 69-74): write the current settings dictionary
to the settings file as JSON. -/
def save_settings (s : Settings) (fs : FileSys) : FileSys :=
  fun p => if p = SETTINGS_FILE then some s else fs p

/-- `save_window_geometry` (lines 127-134), the `<Configure>` handler:
unless the app is fullscreen or the window is borderless, store the
current geometry string under `window_geometry` and save the settings. -/
def save_window_geometry (fullscreen overrideredirect : Bool)
    (currentGeometry : String) (s : Settings) (fs : FileSys) :
    Settings × FileSys :=
  if ¬fullscreen ∧ ¬overrideredirect then
    let s2 := { s with window_geometry := currentGeometry }
    (s2, save_settings s2 fs)
  else
    (s, fs)

/-- Splitting a character list on a separator, `[]` standing for the
empty string: `splitOnSep '\\' "a\\b".data = ["a".data, "b".data]`. -/
def splitOnSep (sep : Char) : List Char → List (List Char)
  | [] => [[]]
  | c :: rest =>
    let r := splitOnSep sep rest
    if c = sep then [] :: r
    else
      match r with
      | [] => [[c]]
      | h :: t => (c :: h) :: t

/-- Models `os.path.normpath` (Windows `ntpath` semantics, drive letters
aside): forward slashes become backslashes, empty and `"."` components
are dropped, `".."` pops the preceding component, and an empty result
becomes `"."`. -/
def normpath (path : String) : String :=
  let cs := path.data.map (fun c => if c = '/' then '\\' else c)
  let isAbs : Bool :=
    match cs with
    | '\\' :: _ => true
    | _ => false
  let comps := splitOnSep '\\' cs
  let stack := comps.foldl
    (fun acc comp =>
      if comp = ([] : List Char) ∨ comp = ['.'] then acc
      else if comp = ['.', '.'] then
        if isAbs then acc.dropLast
        else
          match acc.getLast? with
          | some last => if last = ['.', '.'] then acc ++ [comp] else acc.dropLast
          | none => acc ++ [comp]
      else acc ++ [comp])
    []
  let body := List.intercalate ['\\'] stack
  if isAbs then String.mk ('\\' :: body)
  else if body = ([] : List Char) then "." else String.mk body

/-- Wrapping a path in double quotes (lines 395-396). -/
def quoteArg (path : String) : String := "\"" ++ path ++ "\""

/-- The spawned command line: the quoted mpv path, the option
`--fullscreen`, the option `--loop-file=inf`, and the quoted video path,
separated by spaces (line 399). -/
def mpv_command (mpvPath videoPath : String) : String :=
  quoteArg mpvPath ++ " --fullscreen --loop-file=inf " ++ quoteArg videoPath

/-- The observable outcome of one `play_video` call: either an external
player process is spawned with a command line, or one of the two dialogs
is shown and nothing is spawned. -/
inductive PlayResult where
  | spawned (cmd : String)
  | mpvNotFoundError
  | videoNotFoundWarning
deriving Repr, DecidableEq

/-- `play_video` (lines 377-411).  `pathExists` is `os.path.exists`; the
Python truthiness test `not self.mpv_path` is emptiness of the string.
The method never writes `self.settings` nor the settings file, so they
are passed through unchanged. -/
def play_video (pathExists : String → Bool) (mpvPath : String)
    (s : Settings) (fs : FileSys) (videoPath : String) :
    PlayResult × Settings × FileSys :=
  if mpvPath = "" ∨ pathExists mpvPath = false then
    (PlayResult.mpvNotFoundError, s, fs)
  else if videoPath ≠ "" ∧ pathExists videoPath = true then
    (PlayResult.spawned (mpv_command (normpath mpvPath) (normpath videoPath)),
      s, fs)
  else
    (PlayResult.videoNotFoundWarning, s, fs)

/-- True exactly on the outcome in which a player process was spawned. -/
def spawnsProcess : PlayResult → Bool
  | PlayResult.spawned _ => true
  | _ => false

/-- The command `create_buttons` wires to a grid button (line 148):
`close_mpv` for index 8, otherwise a closure playing the configured
video of that button. -/
inductive ButtonCommand where
  | playVideoOf (i : Nat)
  | closeMpvCmd
deriving Repr, DecidableEq

/-- `command = self.close_mpv if i == 8 else lambda i=i: self.play_video(
self.settings["buttons"][i]["video"])` (lines 148-150). -/
def button_command (i : Nat) : ButtonCommand :=
  if i = 8 then ButtonCommand.closeMpvCmd else ButtonCommand.playVideoOf i

/-- Grid placement of button `i`: `btn.grid(row=i // 3, column=i % 3)`
(line 176). -/
def buttonGridPos (i : Nat) : Nat × Nat := (i / 3, i % 3)

/-- `Button {i+1}` titles of the `range(9)` loop of `create_buttons`. -/
def buttonCount : Nat := 9

/-- `Python str.strip("{}")`: remove leading and trailing characters
drawn from the set `{'{', '}'}` (line 427). -/
def stripBraces (s : String) : String :=
  String.mk
    (((s.data.dropWhile (fun c => c == '{' || c == '}')).reverse.dropWhile
        (fun c => c == '{' || c == '}')).reverse)

/-- `self.settings["buttons"][button_index]["video"] = video_path`
(line 431): replace the `video` entry of button `i`. -/
def updateButtonVideo (s : Settings) (i : Nat) (v : String) : Settings :=
  { s with
    buttons := s.buttons.mapIdx
      (fun j b => if j = i then { b with video := v } else b) }

/-- The dialog `drag_and_drop` ends with. -/
inductive DropResult where
  | successInfo
  | errorDialog
deriving Repr, DecidableEq

/-- `drag_and_drop` (lines 422-442): strip braces from the drop payload;
if the result is an existing file, store its normalized form as the video
of that button and save settings, otherwise raise and show the error
dialog, leaving the settings state untouched. -/
def drag_and_drop (isFile : String → Bool) (data : String) (i : Nat)
    (s : Settings) (fs : FileSys) : Settings × FileSys × DropResult :=
  let video_path := stripBraces data
  if isFile video_path = true then
    let s2 := updateButtonVideo s i (normpath video_path)
    (s2, save_settings s2 fs, DropResult.successInfo)
  else
    (s, fs, DropResult.errorDialog)

/-- User-visible events the process-lifecycle claims quantify over:
clicking one of the nine grid buttons, or the Quit context-menu
command (`quit_program`). -/
inductive Event where
  | pressButton (i : Nat)
  | quitCommand
deriving Repr, DecidableEq

/-- The state the process-lifecycle claims are about: the settings and
cached `self.mpv_path`, the settings file, the command lines of the mpv
player processes currently running, and whether the Tk mainloop is
still running. -/
structure LauncherState where
  settings : Settings
  mpv_path : String
  settingsFile : FileSys
  running : List String
  mainloopRunning : Bool

/-- One user event.  A press of button 8 runs `close_mpv` (lines
413-420), whose `taskkill /F /IM mpv.exe` force-kills every running mpv
process; a press of buttons 0-7 runs `play_video` on the configured
video of that button, which `subprocess.Popen`s a new player alongside any
already running (lines 377-411); `quit_program` (lines 535-539) only
calls `self.root.quit()`, stopping the mainloop. -/
def step (pathExists : String → Bool) (st : LauncherState) (e : Event) :
    LauncherState :=
  match e with
  | Event.pressButton i =>
    match button_command i with
    | ButtonCommand.closeMpvCmd => { st with running := [] }
    | ButtonCommand.playVideoOf j =>
      match st.settings.buttons[j]? with
      | some b =>
        let out := play_video pathExists st.mpv_path st.settings
          st.settingsFile b.video
        let st2 := { st with settings := out.2.1, settingsFile := out.2.2 }
        match out.1 with
        | PlayResult.spawned cmd => { st2 with running := st2.running ++ [cmd] }
        | _ => st2
      | none => st
  | Event.quitCommand => { st with mainloopRunning := false }

/-- Run a sequence of user events from a state. -/
def runTrace (pathExists : String → Bool) (st : LauncherState)
    (events : List Event) : LauncherState :=
  events.foldl (step pathExists) st

/-- The containment test of `toggle_fullscreen` (lines 489-494): the
top-left corner of the window lies inside the bounds of the monitor. -/
def containsPoint (m : Monitor) (wx wy : Int) : Bool :=
  decide (m.x ≤ wx) && decide (wx < m.x + m.width) &&
    decide (m.y ≤ wy) && decide (wy < m.y + m.height)

/-- The exact-match test of `enter_fullscreen_on_startup` (lines
452-457) between a connected monitor and the saved
`fullscreen_monitor` entry. -/
def monitorMatches (mi : MonitorInfo) (m : Monitor) : Bool :=
  decide (m.x = mi.x) && decide (m.y = mi.y) &&
    decide (m.width = mi.width) && decide (m.height = mi.height)

/-- The geometry string `f"{monitor.width}x{monitor.height}+{monitor.x}
+{monitor.y}"` (lines 463-465 and 503-505). -/
def geometryString (m : Monitor) : String :=
  toString m.width ++ "x" ++ toString m.height ++ "+" ++ toString m.x
    ++ "+" ++ toString m.y

/-- The saved `fullscreen_monitor` dictionary built from a monitor
(lines 508-513). -/
def monitorInfoOf (m : Monitor) : MonitorInfo :=
  { x := m.x, y := m.y, width := m.width, height := m.height }

/-- The window-related state `toggle_fullscreen` and
`enter_fullscreen_on_startup` read and write: the `self.fullscreen` and
`self.overrideredirect` flags, the Tk `-fullscreen` attribute, the
current geometry string, the remembered `self.windowed_geometry`
(absent until first set, hence `Option`), and the settings entry
`fullscreen_monitor`. -/
structure WindowState where
  fullscreen : Bool
  overrideredirect : Bool
  toolkitFullscreenAttr : Bool
  geometry : String
  windowed_geometry : Option String
  fullscreen_monitor : Option MonitorInfo
deriving Repr, DecidableEq

/-- `toggle_fullscreen` (lines 474-533).  `monitors` is
`screeninfo.get_monitors()`, `wx`/`wy` are `winfo_x()`/`winfo_y()`.
Entering fullscreen scans the monitors in order for the first whose
bounds contain the window corner: if found, the window goes borderless
with geometry covering that monitor and the monitor is saved to
settings; otherwise the toolkit `-fullscreen` attribute is used and
`fullscreen_monitor` is cleared.  Leaving fullscreen restores borders
or clears the attribute. -/
def toggle_fullscreen (monitors : List Monitor) (wx wy : Int)
    (st : WindowState) : WindowState :=
  let fs := !st.fullscreen
  if fs then
    match monitors.find? (fun m => containsPoint m wx wy) with
    | some m =>
      { st with
        fullscreen := fs
        overrideredirect := true
        windowed_geometry := some st.geometry
        geometry := geometryString m
        fullscreen_monitor := some (monitorInfoOf m) }
    | none =>
      { st with
        fullscreen := fs
        toolkitFullscreenAttr := true
        overrideredirect := false
        fullscreen_monitor := none }
  else
    if st.overrideredirect then
      { st with
        fullscreen := fs
        overrideredirect := false
        geometry :=
          match st.windowed_geometry with
          | some g => g
          | none => st.geometry
        fullscreen_monitor := none }
    else
      { st with
        fullscreen := fs
        toolkitFullscreenAttr := false
        fullscreen_monitor := none }

/-- `enter_fullscreen_on_startup` (lines 444-472): with a saved
`fullscreen_monitor`, scan the connected monitors for one matching its
saved x, y, width and height exactly; on a match go borderless covering
that monitor, and otherwise — as when nothing is saved — fall back to
the toolkit `-fullscreen` attribute. -/
def enter_fullscreen_on_startup (monitors : List Monitor)
    (st : WindowState) : WindowState :=
  match st.fullscreen_monitor with
  | some mi =>
    match monitors.find? (fun m => monitorMatches mi m) with
    | some m =>
      { st with
        overrideredirect := true
        geometry := geometryString m }
    | none => { st with toolkitFullscreenAttr := true }
  | none => { st with toolkitFullscreenAttr := true }

/-- Substring containment at the character level: `sub` occurs
contiguously inside `s`. -/
def containsSub (sub s : String) : Prop :=
  ∃ l r : List Char, s.data = l ++ sub.data ++ r

/-- A concrete `os.path.exists`/`os.path.isfile` environment in which
the mpv binary and two video files exist. -/
def demoExists : String → Bool := fun p =>
  p == "C:\\mpv\\mpv.exe" || p == "C:\\videos\\a.mp4" ||
    p == "C:\\videos\\b.mp4"

/-- A concrete buttons list assigning videos to buttons 1 and 2. -/
def demoButtons : List ButtonConfig :=
  [{ title := "Button 1", video := "C:\\videos\\a.mp4" },
   { title := "Button 2", video := "C:\\videos\\b.mp4" }] ++
    (List.range 7).map
      (fun i => { title := "Button " ++ toString (i + 3), video := "" })

/-- Concrete settings with the mpv path configured. -/
def demoSettings : Settings :=
  { defaultSettings with
    mpv_path := "C:\\mpv\\mpv.exe"
    buttons := demoButtons }

/-- Concrete start state: settings loaded, no player process running,
mainloop running. -/
def demoInit : LauncherState :=
  { settings := demoSettings
    mpv_path := "C:\\mpv\\mpv.exe"
    settingsFile := fun _ => none
    running := []
    mainloopRunning := true }

/-- An absent settings file. -/
def emptyFile : FileSys := fun _ => none

/-- Two concrete side-by-side monitors. -/
def demoMonitors : List Monitor :=
  [{ x := 0, y := 0, width := 1920, height := 1080 },
   { x := 1920, y := 0, width := 1280, height := 1024 }]

/-- A concrete windowed-mode window state. -/
def demoWindow : WindowState :=
  { fullscreen := false
    overrideredirect := false
    toolkitFullscreenAttr := false
    geometry := "600x600+100+100"
    windowed_geometry := none
    fullscreen_monitor := none }

/-- A concrete window state carrying a saved `fullscreen_monitor` that
matches the second demo monitor exactly. -/
def demoWindowSaved : WindowState :=
  { demoWindow with
    fullscreen_monitor := some { x := 1920, y := 0, width := 1280, height := 1024 } }

theorem containsSub_intro (sub l r s : String) (h : s = l ++ sub ++ r) :
    containsSub sub s :=
  ⟨l.data, r.data, by simp [h]⟩

/-- C8: settings persistence round-trips — for every settings dictionary
and file system, `save_settings` followed by `load_settings` (the
settings file now being present) returns the dictionary that was saved,
so button-to-file mappings and display preferences survive a restart. -/
theorem settings_roundtrip (s : Settings) (fs : FileSys) :
    load_settings (save_settings s fs) = s := by
  simp [load_settings, save_settings]

/-- C9: while the fullscreen flag or the overrideredirect flag is true,
a Configure event leaves the settings state (including the persisted
`window_geometry`) unchanged; only when both flags are false does
`save_window_geometry` write the current geometry into settings and
save them. -/
theorem save_window_geometry_guard (fullscreen overrideredirect : Bool)
    (g : String) (s : Settings) (fs : FileSys) :
    ((fullscreen = true ∨ overrideredirect = true) →
      save_window_geometry fullscreen overrideredirect g s fs = (s, fs)) ∧
    (fullscreen = false → overrideredirect = false →
      save_window_geometry fullscreen overrideredirect g s fs =
        ({ s with window_geometry := g },
          save_settings { s with window_geometry := g } fs)) := by
  constructor
  · intro h
    rcases h with h | h <;> simp [save_window_geometry, h]
  · intro h1 h2
    simp [save_window_geometry, h1, h2]

theorem save_window_geometry_guard_witness :
    (true = true ∨ false = true) ∧
      save_window_geometry true false "800x600+0+0" defaultSettings emptyFile =
        (defaultSettings, emptyFile) :=
  ⟨Or.inl rfl,
    (save_window_geometry_guard true false "800x600+0+0" defaultSettings
      emptyFile).1 (Or.inl rfl)⟩

/-- C10: a drop onto one of buttons 1-8 updates the video assignment of
that button in settings (to the dropped path with surrounding braces stripped, then
normalized) and saves settings exactly when the stripped path names an
existing file; otherwise an error dialog is shown and the settings state
is unchanged. -/
theorem drag_and_drop_atomic (isFile : String → Bool) (data : String)
    (i : Nat) (s : Settings) (fs : FileSys) (hbtn : i < 8) :
    (isFile (stripBraces data) = true →
      drag_and_drop isFile data i s fs =
        (updateButtonVideo s i (normpath (stripBraces data)),
          save_settings (updateButtonVideo s i (normpath (stripBraces data))) fs,
          DropResult.successInfo)) ∧
    (isFile (stripBraces data) = false →
      drag_and_drop isFile data i s fs = (s, fs, DropResult.errorDialog)) := by
  constructor
  · intro h
    simp [drag_and_drop, h]
  · intro h
    simp [drag_and_drop, h]

theorem drag_and_drop_atomic_witness :
    (0 : Nat) < 8 ∧ demoExists (stripBraces "\x7bC:\\videos\\b.mp4\x7d") = true ∧
      drag_and_drop demoExists "\x7bC:\\videos\\b.mp4\x7d" 0 demoSettings emptyFile =
        (updateButtonVideo demoSettings 0 (normpath (stripBraces "\x7bC:\\videos\\b.mp4\x7d")),
          save_settings
            (updateButtonVideo demoSettings 0 (normpath (stripBraces "\x7bC:\\videos\\b.mp4\x7d")))
            emptyFile,
          DropResult.successInfo) :=
  ⟨by decide, rfl,
    (drag_and_drop_atomic demoExists "\x7bC:\\videos\\b.mp4\x7d" 0 demoSettings
      emptyFile (by decide)).1 rfl⟩

/-- C3 counterexample: the ninth grid button (index 8) is not wired to
play a video — `create_buttons` gives it `close_mpv` as its command, so
"every one of the nine buttons is mapped to a video file, which
clicking that button plays" fails at button index 8. -/
theorem ninth_button_counterexample :
    button_command 8 = ButtonCommand.closeMpvCmd ∧
      button_command 8 ≠ ButtonCommand.playVideoOf 8 := by
  decide

/-- C3 (amended): the launcher presents nine buttons in a 3×3 grid
(each row and column index below 3, no two buttons sharing a cell);
each of the first eight buttons is wired to play its configured video,
while the ninth is wired to `close_mpv`. -/
theorem grid_buttons_amended :
    (∀ i, i < buttonCount → (buttonGridPos i).1 < 3 ∧ (buttonGridPos i).2 < 3) ∧
    (∀ i, i < buttonCount → ∀ j, j < buttonCount →
      buttonGridPos i = buttonGridPos j → i = j) ∧
    (∀ i, i < 8 → button_command i = ButtonCommand.playVideoOf i) ∧
    button_command 8 = ButtonCommand.closeMpvCmd := by
  decide

theorem grid_buttons_amended_witness :
    (7 : Nat) < 8 ∧ button_command 7 = ButtonCommand.playVideoOf 7 :=
  ⟨by decide, grid_buttons_amended.2.2.1 7 (by decide)⟩

/-- C1 counterexample: starting with no player process running, pressing
button 1 twice (its video and the mpv path both existing) leaves two
spawned mpv player processes running at once — launching a video while
a previously launched player is still running does not prevent overlap. -/
theorem overlap_counterexample :
    demoInit.running = [] ∧
      (runTrace demoExists demoInit
        [Event.pressButton 0, Event.pressButton 0]).running.length = 2 :=
  ⟨rfl, rfl⟩

/-- C1 (amended): launching a video never terminates a previously
launched player — the spawn appends the command line of the new player to
the processes already running, so overlapping players accumulate; the
running players are only removed by the ninth button via `close_mpv`,
which force-kills them all. -/
theorem launch_keeps_previous_players (pathExists : String → Bool)
    (st : LauncherState) (i j : Nat) (b : ButtonConfig) (cmd : String) :
    (button_command i = ButtonCommand.playVideoOf j →
      st.settings.buttons[j]? = some b →
      (play_video pathExists st.mpv_path st.settings st.settingsFile b.video).1 =
        PlayResult.spawned cmd →
      (step pathExists st (Event.pressButton i)).running = st.running ++ [cmd]) ∧
    (step pathExists st (Event.pressButton 8)).running = [] := by
  constructor
  · intro hc hb hs
    simp [step, hc, hb, hs]
  · simp [step, button_command]

theorem launch_keeps_previous_players_witness :
    button_command 0 = ButtonCommand.playVideoOf 0 ∧
      (step demoExists demoInit (Event.pressButton 0)).running =
        demoInit.running ++
          ["\"C:\\mpv\\mpv.exe\" --fullscreen --loop-file=inf \"C:\\videos\\a.mp4\""] :=
  ⟨rfl,
    (launch_keeps_previous_players demoExists demoInit 0 0
      { title := "Button 1", video := "C:\\videos\\a.mp4" }
      "\"C:\\mpv\\mpv.exe\" --fullscreen --loop-file=inf \"C:\\videos\\a.mp4\"").1
      rfl (by decide) (by decide)⟩

/-- C2 counterexample: after pressing button 1 (spawning a player) and
then the Quit context-menu command, the mainloop has stopped but the
spawned player process is still running; likewise switching to another
video (pressing button 2) leaves the first player running alongside the
second. -/
theorem quit_leaves_player_counterexample :
    (runTrace demoExists demoInit
        [Event.pressButton 0, Event.quitCommand]).mainloopRunning = false ∧
      (runTrace demoExists demoInit
        [Event.pressButton 0, Event.quitCommand]).running.length = 1 ∧
      (runTrace demoExists demoInit
        [Event.pressButton 0, Event.pressButton 1]).running.length = 2 :=
  ⟨rfl, rfl, rfl⟩

/-- C2 (amended): `quit_program` only stops the Tk mainloop and leaves
every spawned player process running, and switching videos spawns
alongside rather than terminating; the only operation that terminates
the players is `close_mpv` on the ninth button, whose
`taskkill /F /IM mpv.exe` kills them all. -/
theorem quit_does_not_kill_players (pathExists : String → Bool)
    (st : LauncherState) :
    (step pathExists st Event.quitCommand).running = st.running ∧
    (step pathExists st Event.quitCommand).mainloopRunning = false ∧
    (step pathExists st (Event.pressButton 8)).running = [] := by
  refine ⟨rfl, rfl, ?_⟩
  simp [step, button_command]

/-- C4: whenever the configured mpv path and the assigned video file
both exist (and are non-empty), `play_video` spawns the external player
with a command line containing the mpv executable path, the
`--fullscreen` option, the `--loop-file=inf` option, and the quoted,
normalized video path. -/
theorem play_video_command_line (pathExists : String → Bool)
    (mpvPath videoPath : String) (s : Settings) (fs : FileSys)
    (h1 : mpvPath ≠ "") (h2 : pathExists mpvPath = true)
    (h3 : videoPath ≠ "") (h4 : pathExists videoPath = true) :
    (play_video pathExists mpvPath s fs videoPath).1 =
      PlayResult.spawned (mpv_command (normpath mpvPath) (normpath videoPath)) ∧
    containsSub (normpath mpvPath)
      (mpv_command (normpath mpvPath) (normpath videoPath)) ∧
    containsSub "--fullscreen"
      (mpv_command (normpath mpvPath) (normpath videoPath)) ∧
    containsSub "--loop-file=inf"
      (mpv_command (normpath mpvPath) (normpath videoPath)) ∧
    containsSub (quoteArg (normpath videoPath))
      (mpv_command (normpath mpvPath) (normpath videoPath)) := by
  refine ⟨?_, ?_, ?_, ?_, ?_⟩
  · simp [play_video, h1, h2, h3, h4]
  · exact containsSub_intro _ "\""
      ("\" --fullscreen --loop-file=inf " ++ quoteArg (normpath videoPath)) _
      (by simp [mpv_command, quoteArg, String.append_assoc])
  · have hsplit : (" --fullscreen --loop-file=inf " : String) =
        " " ++ "--fullscreen" ++ " --loop-file=inf " := rfl
    exact containsSub_intro _ (quoteArg (normpath mpvPath) ++ " ")
      (" --loop-file=inf " ++ quoteArg (normpath videoPath)) _
      (by rw [mpv_command, hsplit]; simp only [quoteArg, String.append_assoc])
  · have hsplit : (" --fullscreen --loop-file=inf " : String) =
        " --fullscreen " ++ "--loop-file=inf" ++ " " := rfl
    exact containsSub_intro _
      (quoteArg (normpath mpvPath) ++ " --fullscreen ")
      (" " ++ quoteArg (normpath videoPath)) _
      (by rw [mpv_command, hsplit]; simp only [quoteArg, String.append_assoc])
  · exact containsSub_intro _
      (quoteArg (normpath mpvPath) ++ " --fullscreen --loop-file=inf ") "" _
      (by simp [mpv_command, quoteArg, String.append_assoc])

theorem play_video_command_line_witness :
    "C:\\mpv\\mpv.exe" ≠ "" ∧ demoExists "C:\\mpv\\mpv.exe" = true ∧
    "C:\\videos\\a.mp4" ≠ "" ∧ demoExists "C:\\videos\\a.mp4" = true ∧
    ((play_video demoExists "C:\\mpv\\mpv.exe" demoSettings emptyFile
        "C:\\videos\\a.mp4").1 =
      PlayResult.spawned
        (mpv_command (normpath "C:\\mpv\\mpv.exe") (normpath "C:\\videos\\a.mp4")) ∧
     containsSub (normpath "C:\\mpv\\mpv.exe")
       (mpv_command (normpath "C:\\mpv\\mpv.exe") (normpath "C:\\videos\\a.mp4")) ∧
     containsSub "--fullscreen"
       (mpv_command (normpath "C:\\mpv\\mpv.exe") (normpath "C:\\videos\\a.mp4")) ∧
     containsSub "--loop-file=inf"
       (mpv_command (normpath "C:\\mpv\\mpv.exe") (normpath "C:\\videos\\a.mp4")) ∧
     containsSub (quoteArg (normpath "C:\\videos\\a.mp4"))
       (mpv_command (normpath "C:\\mpv\\mpv.exe") (normpath "C:\\videos\\a.mp4"))) :=
  ⟨by decide, rfl, by decide, rfl,
    play_video_command_line demoExists "C:\\mpv\\mpv.exe" "C:\\videos\\a.mp4"
      demoSettings emptyFile (by decide) rfl (by decide) rfl⟩

/-- C5: `play_video` spawns an external player process exactly when the
configured mpv path is non-empty and exists and the given video path is
non-empty and exists; in every other case it shows the mpv-not-found
error dialog or the video-not-found warning dialog, spawns nothing, and
leaves the settings state (dictionary and file) unchanged. -/
theorem play_video_spawn_iff (pathExists : String → Bool)
    (mpvPath videoPath : String) (s : Settings) (fs : FileSys) :
    (spawnsProcess (play_video pathExists mpvPath s fs videoPath).1 = true ↔
      (mpvPath ≠ "" ∧ pathExists mpvPath = true ∧
        videoPath ≠ "" ∧ pathExists videoPath = true)) ∧
    (spawnsProcess (play_video pathExists mpvPath s fs videoPath).1 = false →
      ((play_video pathExists mpvPath s fs videoPath).1 =
          PlayResult.mpvNotFoundError ∨
        (play_video pathExists mpvPath s fs videoPath).1 =
          PlayResult.videoNotFoundWarning)) ∧
    (play_video pathExists mpvPath s fs videoPath).2 = (s, fs) := by
  unfold play_video
  split_ifs with hA hB <;> simp_all [spawnsProcess]
  rcases hA with hA | hA <;> simp_all

theorem play_video_spawn_iff_witness :
    spawnsProcess (play_video demoExists "" demoSettings emptyFile
        "C:\\videos\\a.mp4").1 = false ∧
      ((play_video demoExists "" demoSettings emptyFile "C:\\videos\\a.mp4").1 =
          PlayResult.mpvNotFoundError ∨
        (play_video demoExists "" demoSettings emptyFile "C:\\videos\\a.mp4").1 =
          PlayResult.videoNotFoundWarning) :=
  ⟨by decide,
    (play_video_spawn_iff demoExists "" "C:\\videos\\a.mp4" demoSettings
      emptyFile).2.1 (by decide)⟩

/-- C6: when `toggle_fullscreen` switches into fullscreen, if some
connected monitor contains the top-left corner of the window, the
window is made borderless (`overrideredirect`) with geometry covering
exactly that monitor, whose x, y, width, height are saved
to settings as `fullscreen_monitor`; if no monitor contains the corner,
the window instead uses the toolkit fullscreen attribute and
`fullscreen_monitor` is set to `None`. -/
theorem toggle_fullscreen_entering (monitors : List Monitor) (wx wy : Int)
    (st : WindowState) (h : st.fullscreen = false) :
    ((∃ m ∈ monitors, containsPoint m wx wy = true) →
      ∃ m ∈ monitors, containsPoint m wx wy = true ∧
        (toggle_fullscreen monitors wx wy st).overrideredirect = true ∧
        (toggle_fullscreen monitors wx wy st).geometry = geometryString m ∧
        (toggle_fullscreen monitors wx wy st).fullscreen_monitor =
          some (monitorInfoOf m)) ∧
    ((∀ m ∈ monitors, containsPoint m wx wy = false) →
      (toggle_fullscreen monitors wx wy st).toolkitFullscreenAttr = true ∧
      (toggle_fullscreen monitors wx wy st).overrideredirect = false ∧
      (toggle_fullscreen monitors wx wy st).fullscreen_monitor = none) := by
  cases hf : monitors.find? (fun m => containsPoint m wx wy) with
  | some m =>
    have hmem := List.mem_of_find?_eq_some hf
    have hpt := List.find?_some hf
    constructor
    · intro _
      exact ⟨m, hmem, hpt, by simp [toggle_fullscreen, h, hf]⟩
    · intro hall
      exact absurd hpt (by simp [hall m hmem])
  | none =>
    constructor
    · intro ⟨m, hmem, hpt⟩
      exact absurd hpt (by simp [List.find?_eq_none.mp hf m hmem])
    · intro _
      simp [toggle_fullscreen, h, hf]

theorem toggle_fullscreen_entering_witness :
    demoWindow.fullscreen = false ∧
      (∃ m ∈ demoMonitors, containsPoint m 1950 10 = true) ∧
      (∃ m ∈ demoMonitors, containsPoint m 1950 10 = true ∧
        (toggle_fullscreen demoMonitors 1950 10 demoWindow).overrideredirect = true ∧
        (toggle_fullscreen demoMonitors 1950 10 demoWindow).geometry = geometryString m ∧
        (toggle_fullscreen demoMonitors 1950 10 demoWindow).fullscreen_monitor =
          some (monitorInfoOf m)) :=
  ⟨rfl, by decide,
    (toggle_fullscreen_entering demoMonitors 1950 10 demoWindow rfl).1 (by decide)⟩

/-- C7: on startup with fullscreen enabled, if a `fullscreen_monitor` is
saved and some connected monitor exactly matches its saved x, y, width
and height, the window is made borderless covering that monitor; if no
connected monitor matches, or nothing is saved, the window defaults to
the toolkit fullscreen attribute (the primary monitor, as the toolkit
places it). -/
theorem startup_fullscreen_placement (monitors : List Monitor)
    (st : WindowState) (mi : MonitorInfo) :
    (st.fullscreen_monitor = some mi →
      (∃ m ∈ monitors, monitorMatches mi m = true) →
      ∃ m ∈ monitors, monitorMatches mi m = true ∧
        (enter_fullscreen_on_startup monitors st).overrideredirect = true ∧
        (enter_fullscreen_on_startup monitors st).geometry = geometryString m) ∧
    (st.fullscreen_monitor = some mi →
      (∀ m ∈ monitors, monitorMatches mi m = false) →
      (enter_fullscreen_on_startup monitors st).toolkitFullscreenAttr = true) ∧
    (st.fullscreen_monitor = none →
      (enter_fullscreen_on_startup monitors st).toolkitFullscreenAttr = true) := by
  refine ⟨?_, ?_, ?_⟩
  · intro hsv hex
    cases hf : monitors.find? (fun m => monitorMatches mi m) with
    | some m =>
      exact ⟨m, List.mem_of_find?_eq_some hf, List.find?_some hf,
        by simp [enter_fullscreen_on_startup, hsv, hf]⟩
    | none =>
      obtain ⟨m, hmem, hpt⟩ := hex
      exact absurd hpt (by simp [List.find?_eq_none.mp hf m hmem])
  · intro hsv hall
    cases hf : monitors.find? (fun m => monitorMatches mi m) with
    | some m =>
      exact absurd (List.find?_some hf)
        (by simp [hall m (List.mem_of_find?_eq_some hf)])
    | none =>
      simp [enter_fullscreen_on_startup, hsv, hf]
  · intro hsv
    simp [enter_fullscreen_on_startup, hsv]

theorem startup_fullscreen_placement_witness :
    demoWindowSaved.fullscreen_monitor =
        some { x := 1920, y := 0, width := 1280, height := 1024 } ∧
      (∃ m ∈ demoMonitors,
        monitorMatches { x := 1920, y := 0, width := 1280, height := 1024 } m = true) ∧
      (∃ m ∈ demoMonitors,
        monitorMatches { x := 1920, y := 0, width := 1280, height := 1024 } m = true ∧
        (enter_fullscreen_on_startup demoMonitors demoWindowSaved).overrideredirect = true ∧
        (enter_fullscreen_on_startup demoMonitors demoWindowSaved).geometry =
          geometryString m) :=
  ⟨rfl, by decide,
    (startup_fullscreen_placement demoMonitors demoWindowSaved
      { x := 1920, y := 0, width := 1280, height := 1024 }).1 rfl (by decide)⟩

end VideoLauncher
